import Mathlib

/-!
Shallow embedding of the `tcp_typed` crate's connection state machine
(`src/connection_states.rs`, `src/connection.rs`, `src/socket_forwarder.rs`,
`src/lib.rs`).  Kernel-observable outcomes of system calls (connect results,
`SO_ERROR` values, bytes moved by the ring buffer's direct-to-FD helpers,
`unsent`/`unreceived` counts, `recvmsg` payloads) are supplied as explicit
oracle inputs to each `poll`.  Side effects (notifier registration, fd closes,
timer arming) are returned as an event trace.  Rust panics and failed
assertions are modelled by explicit `panicked`/`aborted` result constructors
so that every function is total.
-/

deriving instance DecidableEq for Except

namespace TcpTyped

abbrev Fd := Nat
abbrev SockAddr := Nat

/-- `const BUF: usize = 64 * 1024;` from `lib.rs`. -/
def BUF : Nat := 64 * 1024

/-- `const LISTEN_BACKLOG: usize = 128;` from `lib.rs`. -/
def LISTEN_BACKLOG : Nat := 128

/-- The errno values the sources inspect, plus a catch-all. -/
inductive Errno where
  | EINVAL
  | EAGAIN
  | EINPROGRESS
  | EADDRNOTAVAIL
  | ECONNABORTED
  | other
  deriving DecidableEq, Repr

/-- Observable side effects: the `Notifier` capability calls (`add_fd`,
`remove_fd`, `add_instant`, `queue`) plus `unistd::close` and the socket
forwarder's `sendmsg`. -/
inductive Event where
  | addFd (fd : Fd)
  | removeFd (fd : Fd)
  | closeFd (fd : Fd)
  | addInstant
  | queueSelf
  | forwardFd (fd : Fd)
  deriving DecidableEq, Repr

/-- `kill` on an fd-holding state: `executor.remove_fd(fd); unistd::close(fd)`. -/
def killTrace (fd : Fd) : List Event := [.removeFd fd, .closeFd fd]

/-- Modelled from the spec: the byte ring buffer (`circular_buffer.rs` is part
of the crate but is not under `src/`; spec section 1 assumes it as an external
collaborator with the stated interface).  Contents are abstracted to a byte
count `len` with fixed capacity `cap`; the connection states only observe
`read_available`, `write_available`, the deferred single-byte `read`/`write`,
and the direct-to-FD `read_to_fd` / direct-from-FD `write_from_fd` whose
kernel outcomes are given as oracle inputs. -/
structure CircularBuffer where
  len : Nat
  cap : Nat
  deriving DecidableEq, Repr

def CircularBuffer.read_available (b : CircularBuffer) : Nat := b.len

def CircularBuffer.write_available (b : CircularBuffer) : Nat := b.cap - b.len

/-- Modelled from the spec: `read()` hands out one buffered byte exactly when
one is available. -/
def CircularBuffer.read (b : CircularBuffer) : Option CircularBuffer :=
  if 0 < b.len then some ⟨b.len - 1, b.cap⟩ else none

/-- Modelled from the spec: `write()` accepts one byte exactly when spare
capacity remains. -/
def CircularBuffer.write (b : CircularBuffer) : Option CircularBuffer :=
  if 0 < b.cap - b.len then some ⟨b.len + 1, b.cap⟩ else none

/-- Modelled from the spec: `read_to_fd` drains buffered bytes into the fd;
the kernel either writes some `w` bytes (clamped to what is buffered) or
reports an error. -/
def CircularBuffer.read_to_fd (b : CircularBuffer) (res : Except Errno Nat) :
    Except Errno CircularBuffer :=
  match res with
  | .error e => .error e
  | .ok w => .ok ⟨b.len - min w b.len, b.cap⟩

/-- Modelled from the spec: `write_from_fd` fills the buffer from the fd; the
kernel supplies `n` bytes (clamped to spare capacity) and an EOF flag, or an
error. -/
def CircularBuffer.write_from_fd (b : CircularBuffer) (res : Except Errno (Nat × Bool)) :
    Except Errno (CircularBuffer × Bool) :=
  match res with
  | .error e => .error e
  | .ok (n, eof) => .ok (⟨min (b.len + n) b.cap, b.cap⟩, eof)

/-! ## State structs (`connection_states.rs`)

The Rust structs hold rings as `Option<CircularBuffer<u8>>` purely so they can
be moved out with `.take().unwrap()` on consuming transitions; while a state
is live the option is always `Some`, so the embedding stores the ring
directly.  `local` is renamed `local_addr` (`local` is a Lean keyword). -/

structure Connecter where
  state : Option Fd
  local_addr : SockAddr
  remote : SockAddr
  deriving DecidableEq, Repr

structure Connectee where
  fd : Fd
  remote : SockAddr
  deriving DecidableEq, Repr

structure ConnecterLocalClosed where
  state : Option Fd
  local_addr : SockAddr
  remote : SockAddr
  deriving DecidableEq, Repr

structure ConnecteeLocalClosed where
  fd : Fd
  remote : SockAddr
  deriving DecidableEq, Repr

structure Connected where
  fd : Fd
  send : CircularBuffer
  recv : CircularBuffer
  remote_closed : Bool
  remote : SockAddr
  deriving DecidableEq, Repr

structure RemoteClosed where
  fd : Fd
  send : CircularBuffer
  remote : SockAddr
  deriving DecidableEq, Repr

structure LocalClosed where
  fd : Fd
  send : CircularBuffer
  recv : CircularBuffer
  remote_closed : Bool
  local_closed_given : Bool
  remote : SockAddr
  deriving DecidableEq, Repr

structure Closing where
  fd : Fd
  send : CircularBuffer
  local_closed_given : Bool
  remote : SockAddr
  deriving DecidableEq, Repr

/-! ## Poll result enums

These mirror the Rust `*Poll` enums; the extra `panicked` (resp. `aborted`)
constructors stand for Rust panics from failed `assert!`s / `unwrap`s (resp.
the `assert!(count < 1_000)` retry cap), keeping the functions total. -/

inductive RemoteClosedPoll where
  | remoteClosed (s : RemoteClosed)
  | killed
  | panicked
  deriving DecidableEq, Repr

inductive ConnectedPoll where
  | connected (s : Connected)
  | remoteClosed (s : RemoteClosed)
  | killed
  | panicked
  deriving DecidableEq, Repr

inductive ClosingPoll where
  | closing (s : Closing)
  | closed
  | killed
  | panicked
  deriving DecidableEq, Repr

inductive LocalClosedPoll where
  | localClosed (s : LocalClosed)
  | closing (s : Closing)
  | closed
  | killed
  | panicked
  deriving DecidableEq, Repr

inductive ConnecteePoll where
  | connectee (s : Connectee)
  | connected (s : Connected)
  | remoteClosed (s : RemoteClosed)
  | killed
  | panicked
  deriving DecidableEq, Repr

inductive ConnecterPoll where
  | connecter (s : Connecter)
  | connected (s : Connected)
  | remoteClosed (s : RemoteClosed)
  | killed
  | panicked
  | aborted
  deriving DecidableEq, Repr

inductive ConnecterLocalClosedPoll where
  | connecterLocalClosed (s : ConnecterLocalClosed)
  | localClosed (s : LocalClosed)
  | closing (s : Closing)
  | closed
  | killed
  | panicked
  | aborted
  deriving DecidableEq, Repr

inductive ConnecteeLocalClosedPoll where
  | connecteeLocalClosed (s : ConnecteeLocalClosed)
  | localClosed (s : LocalClosed)
  | closing (s : Closing)
  | closed
  | killed
  | panicked
  deriving DecidableEq, Repr

/-! ## Oracle inputs for each poll -/

structure RemoteClosedPollInput where
  /-- `palaver::socket::unreceived(fd)`; the poll asserts it is `0`. -/
  unreceived : Nat
  /-- outcome of `send.read_to_fd(fd)`. -/
  sendFlush : Except Errno Nat
  deriving DecidableEq, Repr

structure ConnectedPollInput where
  sendFlush : Except Errno Nat
  /-- outcome of `recv.write_from_fd(fd)`: bytes read and EOF flag. -/
  recvFill : Except Errno (Nat × Bool)
  /-- input for the `RemoteClosed::new` poll run on promotion. -/
  promoted : RemoteClosedPollInput
  deriving DecidableEq, Repr

structure ClosingPollInput where
  unreceived : Nat
  sendFlush : Except Errno Nat
  /-- outcome of `socket::shutdown(fd, Write)`; `none` = `Ok(())`. -/
  shutdownRes : Option Errno
  /-- `palaver::socket::unsent(fd)`. -/
  unsent : Nat
  deriving DecidableEq, Repr

structure LocalClosedPollInput where
  /-- `SO_ERROR`, read when both half-closes have occurred. -/
  soError : Nat
  sendFlush : Except Errno Nat
  recvFill : Except Errno (Nat × Bool)
  shutdownRes : Option Errno
  /-- input for the `Closing::new` poll run on promotion. -/
  promoted : ClosingPollInput
  deriving DecidableEq, Repr

structure ConnecteePollInput where
  soError : Nat
  isConnected : Bool
  promoted : ConnectedPollInput
  deriving DecidableEq, Repr

structure ConnecteeLocalClosedPollInput where
  soError : Nat
  isConnected : Bool
  promoted : LocalClosedPollInput
  deriving DecidableEq, Repr

/-- Outcome of `socket::connect` in `Connecter::poll`; any result other than
the three matched errnos (including immediate `Ok`) hits the
`err => panic!(..)` arm. -/
inductive ConnectOutcome where
  | einprogress
  | eaddrnotavail
  | econnaborted
  | otherOrOk
  deriving DecidableEq, Repr

/-- Oracle for one iteration of the `Connecter::poll` retry loop. -/
structure ConnecterIter where
  /-- fd returned by `palaver::socket::socket` in the `None` branch. -/
  newFd : Fd
  connectRes : ConnectOutcome
  /-- `SO_ERROR` read right after `connect` in the `None` branch. -/
  soErrorNew : Nat
  /-- `SO_ERROR` read in the `Some` branch. -/
  soError : Nat
  isConnected : Bool
  promoted : ConnectedPollInput
  deriving DecidableEq, Repr

/-- Oracle for one iteration of the `ConnecterLocalClosed::poll` retry loop. -/
structure ConnecterLocalClosedIter where
  soError : Nat
  isConnected : Bool
  promoted : LocalClosedPollInput
  deriving DecidableEq, Repr

/-! ## Per-state poll functions -/

/-- `RemoteClosed::poll`: assert `unreceived == 0`, flush the send ring,
kill on a write error. -/
def RemoteClosed.poll (s : RemoteClosed) (i : RemoteClosedPollInput) :
    RemoteClosedPoll × List Event :=
  if i.unreceived ≠ 0 then (.panicked, [])
  else
    match s.send.read_to_fd i.sendFlush with
    | .ok send' => (.remoteClosed { s with send := send' }, [])
    | .error _ => (.killed, killTrace s.fd)

/-- `RemoteClosed::new` constructs the state and immediately polls it. -/
def RemoteClosed.new (fd : Fd) (send : CircularBuffer) (remote : SockAddr)
    (i : RemoteClosedPollInput) : RemoteClosedPoll × List Event :=
  RemoteClosed.poll { fd := fd, send := send, remote := remote } i

/-- The `if !self.remote_closed { recv.write_from_fd(fd) ... }` step shared by
`Connected::poll` and `LocalClosed::poll`: skipped once `remote_closed`,
otherwise fills the recv ring and latches `remote_closed` on EOF. -/
def recvStep (recv : CircularBuffer) (remote_closed : Bool)
    (res : Except Errno (Nat × Bool)) : Except Errno (CircularBuffer × Bool) :=
  if remote_closed then .ok (recv, true)
  else
    match recv.write_from_fd res with
    | .ok (recv', eof) => .ok (recv', eof)
    | .error e => .error e

/-- `Connected::poll`: send-flush, then recv-fill (EOF latches
`remote_closed`), then promote to `RemoteClosed` only when
`remote_closed && recv ring empty`. -/
def Connected.poll (s : Connected) (i : ConnectedPollInput) :
    ConnectedPoll × List Event :=
  match s.send.read_to_fd i.sendFlush with
  | .error _ => (.killed, killTrace s.fd)
  | .ok send' =>
    match recvStep s.recv s.remote_closed i.recvFill with
    | .error _ => (.killed, killTrace s.fd)
    | .ok (recv', rc') =>
      if !rc' || 0 < recv'.read_available then
        (.connected { s with send := send', recv := recv', remote_closed := rc' }, [])
      else
        match RemoteClosed.new s.fd send' s.remote i.promoted with
        | (.remoteClosed x, t) => (.remoteClosed x, t)
        | (.killed, t) => (.killed, t)
        | (.panicked, t) => (.panicked, t)

/-- `Connected::new`: fresh 64 KiB rings, `remote_closed = false`, then poll. -/
def Connected.new (fd : Fd) (remote : SockAddr) (i : ConnectedPollInput) :
    ConnectedPoll × List Event :=
  Connected.poll
    { fd := fd, send := ⟨0, BUF⟩, recv := ⟨0, BUF⟩, remote_closed := false,
      remote := remote } i

def Connected.recv_avail (s : Connected) : Nat := s.recv.read_available

/-- `Connected::recv` (named `recv_op` here: the struct field is `recv`). -/
def Connected.recv_op (s : Connected) : Option (Connected × List Event) :=
  s.recv.read.map fun recv' => ({ s with recv := recv' }, [Event.queueSelf])

def Connected.send_avail (s : Connected) : Nat := s.send.write_available

def Connected.send_op (s : Connected) : Option (Connected × List Event) :=
  s.send.write.map fun send' => ({ s with send := send' }, [Event.queueSelf])

def RemoteClosed.send_avail (s : RemoteClosed) : Nat := s.send.write_available

def RemoteClosed.send_op (s : RemoteClosed) : Option (RemoteClosed × List Event) :=
  s.send.write.map fun send' => ({ s with send := send' }, [Event.queueSelf])

/-- The shutdown step shared verbatim by `LocalClosed::poll` and
`Closing::poll`: `if !local_closed_given && send.read_available() == 0`
issue `shutdown(Write)`; `some lcg'` is the updated flag, `none` means the
shutdown errored (the state kills itself). -/
def shutdownStep (lcg : Bool) (send' : CircularBuffer) (res : Option Errno) :
    Option Bool :=
  if !lcg && send'.read_available == 0 then
    match res with
    | none => some true
    | some _ => none
  else some lcg

/-- `Closing::poll`: assert `unreceived == 0`; flush; maybe `shutdown(Write)`;
once `local_closed_given`, close the fd when the kernel reports `unsent == 0`,
otherwise arm a ~1 ms timer and remain `Closing`. -/
def Closing.poll (s : Closing) (i : ClosingPollInput) : ClosingPoll × List Event :=
  if i.unreceived ≠ 0 then (.panicked, [])
  else
    match s.send.read_to_fd i.sendFlush with
    | .error _ => (.killed, killTrace s.fd)
    | .ok send' =>
      match shutdownStep s.local_closed_given send' i.shutdownRes with
      | none => (.killed, killTrace s.fd)
      | some lcg' =>
        if lcg' then
          if i.unsent == 0 then (.closed, [.removeFd s.fd, .closeFd s.fd])
          else (.closing { s with send := send', local_closed_given := lcg' },
                [.addInstant])
        else (.closing { s with send := send', local_closed_given := lcg' }, [])

def Closing.new (fd : Fd) (send : CircularBuffer) (lcg : Bool) (remote : SockAddr)
    (i : ClosingPollInput) : ClosingPoll × List Event :=
  Closing.poll { fd := fd, send := send, local_closed_given := lcg, remote := remote } i

/-- `LocalClosed::poll`, step for step: (1) once both half-closes have
occurred check `SO_ERROR`; (2) flush the send ring unless already shut down;
(3) fill the recv ring unless the peer already FINed; (4) `shutdown(Write)`
when the send ring has drained; (5) promote to `Closing` only when
`remote_closed && recv ring empty`. -/
def LocalClosed.poll (s : LocalClosed) (i : LocalClosedPollInput) :
    LocalClosedPoll × List Event :=
  if s.local_closed_given = true ∧ s.remote_closed = true ∧ i.soError ≠ 0 then
    (.killed, killTrace s.fd)
  else
    match (if s.local_closed_given then .ok s.send else s.send.read_to_fd i.sendFlush :
        Except Errno CircularBuffer) with
    | .error _ => (.killed, killTrace s.fd)
    | .ok send' =>
      match recvStep s.recv s.remote_closed i.recvFill with
      | .error _ => (.killed, killTrace s.fd)
      | .ok (recv', rc') =>
        match shutdownStep s.local_closed_given send' i.shutdownRes with
        | none => (.killed, killTrace s.fd)
        | some lcg' =>
          if !rc' || 0 < recv'.read_available then
            (.localClosed { s with send := send', recv := recv', remote_closed := rc', local_closed_given := lcg' }, [])
          else
            match Closing.new s.fd send' lcg' s.remote i.promoted with
            | (.closing x, t) => (.closing x, t)
            | (.closed, t) => (.closed, t)
            | (.killed, t) => (.killed, t)
            | (.panicked, t) => (.panicked, t)

def LocalClosed.new (fd : Fd) (send recv : CircularBuffer) (remote_closed : Bool)
    (remote : SockAddr) (i : LocalClosedPollInput) : LocalClosedPoll × List Event :=
  LocalClosed.poll
    { fd := fd, send := send, recv := recv, remote_closed := remote_closed,
      local_closed_given := false, remote := remote } i

def LocalClosed.recv_avail (s : LocalClosed) : Nat := s.recv.read_available

/-- `LocalClosed::recv` (named `recv_op` here: the struct field is `recv`). -/
def LocalClosed.recv_op (s : LocalClosed) : Option (LocalClosed × List Event) :=
  s.recv.read.map fun recv' => ({ s with recv := recv' }, [Event.queueSelf])

/-- `Connectee::poll`: `SO_ERROR != 0` gives `Killed`; once `is_connected`,
promote through `Connected::new`; otherwise remain. -/
def Connectee.poll (s : Connectee) (i : ConnecteePollInput) :
    ConnecteePoll × List Event :=
  if i.soError ≠ 0 then (.killed, [])
  else if i.isConnected then
    match Connected.new s.fd s.remote i.promoted with
    | (.connected x, t) => (.connected x, t)
    | (.remoteClosed x, t) => (.remoteClosed x, t)
    | (.killed, t) => (.killed, t)
    | (.panicked, t) => (.panicked, t)
  else (.connectee s, [])

/-- `ConnecteeLocalClosed::poll`: like `Connectee` but promotes through
`LocalClosed::new` with fresh rings and `remote_closed = false`. -/
def ConnecteeLocalClosed.poll (s : ConnecteeLocalClosed)
    (i : ConnecteeLocalClosedPollInput) : ConnecteeLocalClosedPoll × List Event :=
  if i.soError ≠ 0 then (.killed, [])
  else if i.isConnected then
    match LocalClosed.new s.fd ⟨0, BUF⟩ ⟨0, BUF⟩ false s.remote i.promoted with
    | (.localClosed x, t) => (.localClosed x, t)
    | (.closing x, t) => (.closing x, t)
    | (.closed, t) => (.closed, t)
    | (.killed, t) => (.killed, t)
    | (.panicked, t) => (.panicked, t)
  else (.connecteeLocalClosed s, [])

/-- The `Connecter::poll` retry loop.  The Rust loop body runs with counter
values `count = 1, 2, ...` and `assert!(count < 1_000)` fires on entering the
iteration with `count = 1000`; here `left` is the number of loop entries still
permitted before the assert fires (999 at the top-level call).  The returned
`Nat` instruments the loop with the number of counter increments performed
(so the aborting entry itself counts), letting the retry-cap claim be stated;
the oracle `f` maps the iteration index to that iteration's syscall
outcomes. -/
def Connecter.pollLoop (local_addr remote : SockAddr) (st : Option Fd)
    (f : Nat → ConnecterIter) (idx : Nat) (left : Nat) :
    ConnecterPoll × List Event × Nat :=
  match left with
  | 0 => (.aborted, [], 1)
  | left' + 1 =>
    match st with
    | none =>
      let i := f idx
      match i.connectRes with
      | .otherOrOk => (.panicked, [.addFd i.newFd], 1)
      | .einprogress =>
        if i.soErrorNew == 0 then
          let r := Connecter.pollLoop local_addr remote (some i.newFd) f (idx + 1) left'
          (r.1, .addFd i.newFd :: r.2.1, r.2.2 + 1)
        else
          (.connecter { state := none, local_addr := local_addr, remote := remote },
            [.addFd i.newFd, .removeFd i.newFd, .closeFd i.newFd, .addInstant], 1)
      | .eaddrnotavail =>
          (.connecter { state := none, local_addr := local_addr, remote := remote },
            [.addFd i.newFd, .removeFd i.newFd, .closeFd i.newFd, .addInstant], 1)
      | .econnaborted =>
          (.connecter { state := none, local_addr := local_addr, remote := remote },
            [.addFd i.newFd, .removeFd i.newFd, .closeFd i.newFd, .addInstant], 1)
    | some fd =>
      let i := f idx
      if i.soError == 0 then
        if i.isConnected then
          match Connected.new fd remote i.promoted with
          | (.connected x, t) => (.connected x, t, 1)
          | (.remoteClosed x, t) => (.remoteClosed x, t, 1)
          | (.killed, t) => (.killed, t, 1)
          | (.panicked, t) => (.panicked, t, 1)
        else
          (.connecter { state := some fd, local_addr := local_addr, remote := remote },
            [], 1)
      else
        let r := Connecter.pollLoop local_addr remote none f (idx + 1) left'
        (r.1, .removeFd fd :: .closeFd fd :: r.2.1, r.2.2 + 1)

def Connecter.poll (s : Connecter) (f : Nat → ConnecterIter) :
    ConnecterPoll × List Event × Nat :=
  Connecter.pollLoop s.local_addr s.remote s.state f 0 999

/-- The `ConnecterLocalClosed::poll` retry loop, with the same
`assert!(count < 1_000)` at the top of each iteration; the `None` branch
returns `Closed` immediately. -/
def ConnecterLocalClosed.pollLoop (local_addr remote : SockAddr) (st : Option Fd)
    (f : Nat → ConnecterLocalClosedIter) (idx : Nat) (left : Nat) :
    ConnecterLocalClosedPoll × List Event × Nat :=
  match left with
  | 0 => (.aborted, [], 1)
  | left' + 1 =>
    match st with
    | none => (.closed, [], 1)
    | some fd =>
      let i := f idx
      if i.soError == 0 then
        if i.isConnected then
          match LocalClosed.new fd ⟨0, BUF⟩ ⟨0, BUF⟩ false remote i.promoted with
          | (.localClosed x, t) => (.localClosed x, t, 1)
          | (.closing x, t) => (.closing x, t, 1)
          | (.closed, t) => (.closed, t, 1)
          | (.killed, t) => (.killed, t, 1)
          | (.panicked, t) => (.panicked, t, 1)
        else
          (.connecterLocalClosed
            { state := some fd, local_addr := local_addr, remote := remote }, [], 1)
      else
        let r := ConnecterLocalClosed.pollLoop local_addr remote none f (idx + 1) left'
        (r.1, .removeFd fd :: .closeFd fd :: r.2.1, r.2.2 + 1)

def ConnecterLocalClosed.poll (s : ConnecterLocalClosed)
    (f : Nat → ConnecterLocalClosedIter) :
    ConnecterLocalClosedPoll × List Event × Nat :=
  ConnecterLocalClosed.pollLoop s.local_addr s.remote s.state f 0 999

/-! ## The umbrella `Connection` enum (`connection.rs`) -/

inductive Connection where
  | connecter (s : Connecter)
  | connectee (s : Connectee)
  | connecterLocalClosed (s : ConnecterLocalClosed)
  | connecteeLocalClosed (s : ConnecteeLocalClosed)
  | connected (s : Connected)
  | remoteClosed (s : RemoteClosed)
  | localClosed (s : LocalClosed)
  | closing (s : Closing)
  | closed
  | killed
  deriving DecidableEq, Repr

/-- `Connection::poll` either steps to a new `Connection` (the `From<*Poll>`
conversions) or the underlying poll panicked/aborted (`fatal`). -/
inductive ConnectionStep where
  | next (c : Connection)
  | fatal
  deriving DecidableEq, Repr

def ConnecterPoll.toConnection : ConnecterPoll → ConnectionStep
  | .connecter s => .next (.connecter s)
  | .connected s => .next (.connected s)
  | .remoteClosed s => .next (.remoteClosed s)
  | .killed => .next .killed
  | .panicked => .fatal
  | .aborted => .fatal

def ConnecteePoll.toConnection : ConnecteePoll → ConnectionStep
  | .connectee s => .next (.connectee s)
  | .connected s => .next (.connected s)
  | .remoteClosed s => .next (.remoteClosed s)
  | .killed => .next .killed
  | .panicked => .fatal

def ConnecterLocalClosedPoll.toConnection : ConnecterLocalClosedPoll → ConnectionStep
  | .connecterLocalClosed s => .next (.connecterLocalClosed s)
  | .localClosed s => .next (.localClosed s)
  | .closing s => .next (.closing s)
  | .closed => .next .closed
  | .killed => .next .killed
  | .panicked => .fatal
  | .aborted => .fatal

def ConnecteeLocalClosedPoll.toConnection : ConnecteeLocalClosedPoll → ConnectionStep
  | .connecteeLocalClosed s => .next (.connecteeLocalClosed s)
  | .localClosed s => .next (.localClosed s)
  | .closing s => .next (.closing s)
  | .closed => .next .closed
  | .killed => .next .killed
  | .panicked => .fatal

def ConnectedPoll.toConnection : ConnectedPoll → ConnectionStep
  | .connected s => .next (.connected s)
  | .remoteClosed s => .next (.remoteClosed s)
  | .killed => .next .killed
  | .panicked => .fatal

def RemoteClosedPoll.toConnection : RemoteClosedPoll → ConnectionStep
  | .remoteClosed s => .next (.remoteClosed s)
  | .killed => .next .killed
  | .panicked => .fatal

def LocalClosedPoll.toConnection : LocalClosedPoll → ConnectionStep
  | .localClosed s => .next (.localClosed s)
  | .closing s => .next (.closing s)
  | .closed => .next .closed
  | .killed => .next .killed
  | .panicked => .fatal

def ClosingPoll.toConnection : ClosingPoll → ConnectionStep
  | .closing s => .next (.closing s)
  | .closed => .next .closed
  | .killed => .next .killed
  | .panicked => .fatal

/-- Oracle bundle for `Connection::poll`: one input per inner state's poll
(only the field matching the current variant is consulted). -/
structure ConnectionPollInput where
  connecterIn : Nat → ConnecterIter
  connecteeIn : ConnecteePollInput
  connecterLocalClosedIn : Nat → ConnecterLocalClosedIter
  connecteeLocalClosedIn : ConnecteeLocalClosedPollInput
  connectedIn : ConnectedPollInput
  remoteClosedIn : RemoteClosedPollInput
  localClosedIn : LocalClosedPollInput
  closingIn : ClosingPollInput

/-- `Connection::poll`: dispatch on the variant, replacing it by the polled
successor; `Closed` and `Killed` map to themselves. -/
def Connection.poll (c : Connection) (i : ConnectionPollInput) :
    ConnectionStep × List Event :=
  match c with
  | .connecter s =>
    let r := s.poll i.connecterIn
    (r.1.toConnection, r.2.1)
  | .connectee s =>
    let r := s.poll i.connecteeIn
    (r.1.toConnection, r.2)
  | .connecterLocalClosed s =>
    let r := s.poll i.connecterLocalClosedIn
    (r.1.toConnection, r.2.1)
  | .connecteeLocalClosed s =>
    let r := s.poll i.connecteeLocalClosedIn
    (r.1.toConnection, r.2)
  | .connected s =>
    let r := s.poll i.connectedIn
    (r.1.toConnection, r.2)
  | .remoteClosed s =>
    let r := s.poll i.remoteClosedIn
    (r.1.toConnection, r.2)
  | .localClosed s =>
    let r := s.poll i.localClosedIn
    (r.1.toConnection, r.2)
  | .closing s =>
    let r := s.poll i.closingIn
    (r.1.toConnection, r.2)
  | .closed => (.next .closed, [])
  | .killed => (.next .killed, [])

def Connection.connecting : Connection → Bool
  | .connecter _ | .connectee _ | .connecterLocalClosed _ | .connecteeLocalClosed _ =>
    true
  | _ => false

def Connection.recvable : Connection → Bool
  | .connected _ | .localClosed _ => true
  | _ => false

/-- `Connection::recv_avail`: `Some` exactly on the recvable variants (the
Rust `if self.recvable() { Some(match ..) } else { None }` with its
`unreachable!` arm folded into the match). -/
def Connection.recv_avail : Connection → Option Nat
  | .connected s => some s.recv_avail
  | .localClosed s => some s.recv_avail
  | _ => none

/-- `Connection::recv`: `recv_avail().and_then(|avail| if avail > 0 ..)`; the
deferred one-byte reader is abstracted to `Unit`. -/
def Connection.recv (c : Connection) : Option Unit :=
  c.recv_avail.bind fun avail => if 0 < avail then some () else none

def Connection.sendable : Connection → Bool
  | .connected _ | .remoteClosed _ => true
  | _ => false

def Connection.send_avail : Connection → Option Nat
  | .connected s => some s.send_avail
  | .remoteClosed s => some s.send_avail
  | _ => none

/-- `Connection::send`: `send_avail().and_then(|avail| if avail > 0 ..)`. -/
def Connection.send (c : Connection) : Option Unit :=
  c.send_avail.bind fun avail => if 0 < avail then some () else none

/-- `Connection::closed` (named `isClosed`: the variant is named `closed`). -/
def Connection.isClosed : Connection → Bool
  | .closed => true
  | _ => false

def Connection.valid : Connection → Bool
  | .killed => false
  | _ => true

def Connection.closable : Connection → Bool
  | .connecter _ | .connectee _ | .connected _ | .remoteClosed _ => true
  | _ => false

/-- `Connection::close`: `Some` deferred closer iff `closable()`. -/
def Connection.close (c : Connection) : Option Unit :=
  if c.closable then some () else none

def Connection.killable : Connection → Bool
  | .closed | .killed => false
  | _ => true

/-- `Connection::kill`: `Some` deferred killer iff `killable()`. -/
def Connection.kill (c : Connection) : Option Unit :=
  if c.killable then some () else none

/-! ## Socket forwarder (`socket_forwarder.rs`) -/

inductive ControlMessageOwned where
  | scmRights (fds : List Fd)
  | otherMsg
  deriving DecidableEq, Repr

/-- The message produced by a successful `recvmsg`: payload byte count and
control messages. -/
structure RecvMsg where
  bytes : Nat
  cmsgs : List ControlMessageOwned
  deriving DecidableEq, Repr

inductive SFRecv where
  | ok (fd : Fd)
  | panicked
  | errRes (e : Errno)
  deriving DecidableEq, Repr

/-- `SocketForwardee::recv`: one non-blocking `recvmsg`; on success the match
on `(iter.next(), iter.next())` accepts exactly one `ScmRights` control
message, asserts a zero-byte payload and exactly one fd, and panics on any
other shape. -/
def SocketForwardee.recv (res : Except Errno RecvMsg) : SFRecv :=
  match res with
  | .error e => .errRes e
  | .ok msg =>
    match msg.cmsgs with
    | [ControlMessageOwned.scmRights fds] =>
      if msg.bytes = 0 then
        match fds with
        | [fd] => SFRecv.ok fd
        | _ => .panicked
      else .panicked
    | _ => .panicked

/-! ## Listener (`connection_states.rs`) -/

structure Listener where
  fd : Fd
  is_socket_forwarder : Bool
  deriving DecidableEq, Repr

/-- `Listener::into_fd`: surrender the raw fd; `mem::forget(self)` — nothing
closed, nothing unregistered. -/
def Listener.into_fd (l : Listener) : Fd × List Event := (l.fd, [])

/-- `Listener::close`: `executor.remove_fd(self.fd); unistd::close(self.fd)`. -/
def Listener.close (l : Listener) : List Event :=
  [.removeFd l.fd, .closeFd l.fd]

/-- Outcome of the secondary `accept` probed against a received descriptor in
forwardee mode. -/
inductive AcceptProbe where
  | ok (newFd : Fd)
  | errRes (e : Errno)
  deriving DecidableEq, Repr

/-- What the forwardee branch of `Listener::poll` passes on to the body of the
accept loop: a connection fd, an error (`EAGAIN` ends the iterator), or a
panic. -/
inductive ForwardeeRes where
  | connFd (fd : Fd)
  | errRes (e : Errno)
  | panicked
  deriving DecidableEq, Repr

/-- The forwardee branch of `Listener::poll` for one received datagram:
`SocketForwardee(self.fd).recv().and_then(|fd| match accept(fd, ..) { .. })`.
`Err(EINVAL)` from the probe returns `Ok(fd)` — the descriptor is a
pre-accepted connection.  Any other probe outcome is the forwarded-listener
case: assert forwardee mode, unregister and close the old channel fd, assert
the new fd is `O_NONBLOCK` (`nonblock` oracle), register it, clear
`is_socket_forwarder`, and pass the probe outcome through. -/
def Listener.forwardeeStep (l : Listener) (recvIn : Except Errno RecvMsg)
    (probe : AcceptProbe) (nonblock : Bool) : ForwardeeRes × Listener × List Event :=
  match SocketForwardee.recv recvIn with
  | .errRes e => (.errRes e, l, [])
  | .panicked => (.panicked, l, [])
  | .ok fd =>
    match probe with
    | .errRes Errno.EINVAL => (.connFd fd, l, [])
    | x =>
      if !l.is_socket_forwarder then (.panicked, l, [])
      else if !nonblock then (.panicked, l, [.removeFd l.fd, .closeFd l.fd])
      else
        match x with
        | .ok newFd =>
          (.connFd newFd, { fd := fd, is_socket_forwarder := false },
            [.removeFd l.fd, .closeFd l.fd, .addFd fd])
        | .errRes e =>
          (.errRes e, { fd := fd, is_socket_forwarder := false },
            [.removeFd l.fd, .closeFd l.fd, .addFd fd])

/-- Outcome of `palaver::socket::accept(self.fd, ..)` for one iteration of the
non-forwarder accept loop. -/
inductive AcceptRes where
  | ok (fd : Fd)
  | eagain
  | errOther
  deriving DecidableEq, Repr

/-- Oracle for one iteration of the non-forwarder accept loop: the accept
outcome, whether `accept_hook` diverts the fd to a `SocketForwarder`, and the
`getpeername` / `SO_ERROR` results checked on the accepted fd. -/
structure AcceptEvent where
  res : AcceptRes
  hook : Bool
  peer : Option SockAddr
  soError : Nat
  deriving DecidableEq, Repr

/-- One `next()` of the lazy sequence `Listener::poll` yields. -/
inductive ListenerNext where
  | yielded (remote : SockAddr) (fd : Fd) (rest : List AcceptEvent)
  | exhausted
  | panicked
  | outOfEvents
  deriving DecidableEq, Repr

/-- The non-forwarder accept loop of `Listener::poll`, driven by a finite
oracle of accept outcomes: loop until a connection is yielded; `EAGAIN` ends
the iterator; a diverted fd is sent to the forwarder (which then closes it)
and the loop continues; an accepted fd failing the
`(getpeername(fd), SO_ERROR) = (Ok(remote), 0)` check is closed and the loop
continues; otherwise the fd is configured and `(remote, promote)` is
yielded. -/
def Listener.acceptNext (l : Listener) (events : List AcceptEvent) :
    ListenerNext × List Event :=
  match events with
  | [] => (.outOfEvents, [])
  | e :: rest =>
    match e.res with
    | .eagain => (.exhausted, [])
    | .errOther => (.panicked, [])
    | .ok fd =>
      if e.hook then
        let r := Listener.acceptNext l rest
        (r.1, .forwardFd fd :: .closeFd fd :: r.2)
      else
        match e.peer, e.soError with
        | some remote, 0 => (.yielded remote fd rest, [])
        | _, _ =>
          let r := Listener.acceptNext l rest
          (r.1, .closeFd fd :: r.2)

/-! ## Theorems -/

/-- C9: `Listener::into_fd` returns the raw descriptor with no side effect at
all — in particular no `remove_fd` and no close — while `Listener::close`
both unregisters the descriptor from the notifier and closes it. -/
theorem listener_into_fd_frame (l : Listener) :
    Listener.into_fd l = (l.fd, []) ∧
    Listener.close l = [.removeFd l.fd, .closeFd l.fd] :=
  ⟨rfl, rfl⟩

/-- C5: `Closed` and `Killed` are absorbing: `poll` maps each to itself with
no side effects, and both `close` and `kill` return `None` on them, so a
second `kill` observing `Killed` returns `None` and cannot double-close. -/
theorem terminal_absorption (i : ConnectionPollInput) :
    Connection.poll .closed i = (.next .closed, []) ∧
    Connection.poll .killed i = (.next .killed, []) ∧
    Connection.close .closed = none ∧
    Connection.kill .closed = none ∧
    Connection.close .killed = none ∧
    Connection.kill .killed = none :=
  ⟨rfl, rfl, rfl, rfl, rfl, rfl⟩

/-- C6: `Connection::close` returns `Some` exactly on the four open variants
(`Connecter`, `Connectee`, `Connected`, `RemoteClosed`) and
`Connection::kill` returns `Some` exactly on the eight non-terminal
variants. -/
theorem close_kill_permission (c : Connection) :
    ((Connection.close c).isSome = true ↔
      (∃ x, c = .connecter x) ∨ (∃ x, c = .connectee x) ∨
      (∃ x, c = .connected x) ∨ (∃ x, c = .remoteClosed x)) ∧
    ((Connection.kill c).isSome = true ↔ c ≠ .closed ∧ c ≠ .killed) := by
  cases c <;>
    simp [Connection.close, Connection.kill, Connection.closable, Connection.killable]

/-- C4: `recv_avail`/`send_avail` are `Some` exactly on the
recvable/sendable variants; `recv` (resp. `send`) is `Some` exactly when the
corresponding size query is positive; a full send ring yields
`send_avail = Some 0` and `send = None`. -/
theorem capability_agreement (c : Connection) :
    (c.recv_avail.isSome = true ↔ c.recvable = true) ∧
    (c.send_avail.isSome = true ↔ c.sendable = true) ∧
    (c.recv.isSome = true ↔ ∃ n, c.recv_avail = some n ∧ 0 < n) ∧
    (c.send.isSome = true ↔ ∃ n, c.send_avail = some n ∧ 0 < n) ∧
    (∀ s : Connected, c = .connected s → s.send.len = s.send.cap →
      c.send_avail = some 0 ∧ c.send = none) := by
  refine ⟨?_, ?_, ?_, ?_, ?_⟩
  · cases c <;> simp [Connection.recv_avail, Connection.recvable]
  · cases c <;> simp [Connection.send_avail, Connection.sendable]
  · cases c <;>
      simp [Connection.recv, Connection.recv_avail, Option.isSome, Option.bind] <;>
      split <;> simp_all <;> omega
  · cases c <;>
      simp [Connection.send, Connection.send_avail, Option.isSome, Option.bind] <;>
      split <;> simp_all <;> omega
  · rintro s rfl h
    simp [Connection.send, Connection.send_avail, Connected.send_avail,
      CircularBuffer.write_available, h, Option.bind]

/-- C4 witness: a `Connected` state with a full 4-byte send ring has
`send_avail = Some 0` and `send = None`. -/
theorem capability_agreement_witness :
    (Connection.connected ⟨7, ⟨4, 4⟩, ⟨0, 4⟩, false, 0⟩).send_avail = some 0 ∧
    (Connection.connected ⟨7, ⟨4, 4⟩, ⟨0, 4⟩, false, 0⟩).send = none :=
  (capability_agreement (.connected ⟨7, ⟨4, 4⟩, ⟨0, 4⟩, false, 0⟩)).2.2.2.2
    ⟨7, ⟨4, 4⟩, ⟨0, 4⟩, false, 0⟩ rfl rfl

/-- C8: `SocketForwardee::recv` returns a descriptor exactly for a
successfully received zero-byte datagram whose single control message is
`SCM_RIGHTS` with exactly one fd; any other successfully received shape
panics. -/
theorem socket_forwardee_recv_shape (res : Except Errno RecvMsg) :
    ((∃ fd, SocketForwardee.recv res = .ok fd) ↔
      (∃ fd, res = .ok ⟨0, [.scmRights [fd]]⟩)) ∧
    (∀ msg, res = .ok msg →
      (∀ fd, ¬(msg.bytes = 0 ∧ msg.cmsgs = [.scmRights [fd]])) →
      SocketForwardee.recv res = .panicked) := by
  constructor
  · constructor
    · rintro ⟨fd, h⟩
      refine ⟨fd, ?_⟩
      cases res with
      | error e => simp [SocketForwardee.recv] at h
      | ok msg =>
        cases msg with
        | mk bytes cmsgs =>
          match cmsgs with
          | [ControlMessageOwned.scmRights fds] =>
            simp only [SocketForwardee.recv] at h
            split at h
            · match fds with
              | [fd'] =>
                simp at h
                simp_all
              | [] => simp at h
              | _ :: _ :: _ => simp at h
            · exact absurd h (by simp)
          | [] => simp [SocketForwardee.recv] at h
          | ControlMessageOwned.otherMsg :: _ => simp [SocketForwardee.recv] at h
          | _ :: _ :: _ =>
            simp only [SocketForwardee.recv] at h
            cases h
    · rintro ⟨fd, rfl⟩
      exact ⟨fd, rfl⟩
  · rintro msg rfl hshape
    cases msg with
    | mk bytes cmsgs =>
      match cmsgs with
      | [ControlMessageOwned.scmRights fds] =>
        simp only [SocketForwardee.recv]
        split
        · match fds with
          | [fd'] => exact absurd ⟨by assumption, rfl⟩ (hshape fd')
          | [] => rfl
          | _ :: _ :: _ => rfl
        · rfl
      | [] => rfl
      | ControlMessageOwned.otherMsg :: rest => rfl
      | ControlMessageOwned.scmRights _ :: c :: rest => rfl

/-- C8 witness: a one-byte datagram carrying one fd panics, and a zero-byte
datagram carrying exactly one fd yields it. -/
theorem socket_forwardee_recv_shape_witness :
    SocketForwardee.recv (.ok ⟨1, [.scmRights [5]]⟩) = .panicked ∧
    (∃ fd, SocketForwardee.recv (.ok ⟨0, [.scmRights [5]]⟩) = .ok fd) := by
  constructor
  · exact (socket_forwardee_recv_shape (.ok ⟨1, [.scmRights [5]]⟩)).2
      ⟨1, [.scmRights [5]]⟩ rfl (by intro fd h; simp at h)
  · exact (socket_forwardee_recv_shape (.ok ⟨0, [.scmRights [5]]⟩)).1.mpr ⟨5, rfl⟩

/-- C1 counterexample: when the secondary `accept` on the received descriptor
returns `EINVAL`, the code does NOT swap the listener's fd — the listener is
returned unchanged (still in forwardee mode, empty trace) and the descriptor
is passed on as a pre-accepted connection, the opposite of the claimed
classification. -/
theorem forwardee_einval_no_swap :
    Listener.forwardeeStep ⟨3, true⟩ (.ok ⟨0, [.scmRights [5]]⟩)
        (.errRes .EINVAL) true
      = (.connFd 5, ⟨3, true⟩, []) ∧
    (Listener.forwardeeStep ⟨3, true⟩ (.ok ⟨0, [.scmRights [5]]⟩)
        (.errRes .EINVAL) true).2.1.is_socket_forwarder = true :=
  ⟨rfl, rfl⟩

/-- C1 (amended): the received descriptor is classified as a forwarded
listening socket exactly when the secondary `accept` does NOT return
`EINVAL`: in that case the listener swaps its fd in place (unregisters and
closes the old channel fd, registers the new fd, clears
`is_socket_forwarder`) and passes the probe outcome through; when the probe
returns `EINVAL` the descriptor is treated as a pre-accepted connection and
the listener is unchanged. -/
theorem forwardee_classification (l : Listener) (recvIn : Except Errno RecvMsg)
    (fd : Fd) (probe : AcceptProbe)
    (hsf : l.is_socket_forwarder = true)
    (hrecv : SocketForwardee.recv recvIn = .ok fd) :
    (probe = .errRes .EINVAL →
      Listener.forwardeeStep l recvIn probe true = (.connFd fd, l, [])) ∧
    (∀ newFd, probe = .ok newFd →
      Listener.forwardeeStep l recvIn probe true
        = (.connFd newFd, ⟨fd, false⟩, [.removeFd l.fd, .closeFd l.fd, .addFd fd])) ∧
    (∀ e, e ≠ .EINVAL → probe = .errRes e →
      Listener.forwardeeStep l recvIn probe true
        = (.errRes e, ⟨fd, false⟩, [.removeFd l.fd, .closeFd l.fd, .addFd fd])) := by
  refine ⟨?_, ?_, ?_⟩
  · rintro rfl
    simp [Listener.forwardeeStep, hrecv]
  · rintro newFd rfl
    simp [Listener.forwardeeStep, hrecv, hsf]
  · rintro e he rfl
    cases e
    case EINVAL => exact absurd rfl he
    all_goals simp [Listener.forwardeeStep, hrecv, hsf]

/-- C1 witness: a forwardee-mode listener receiving fd 5 whose probe accept
succeeds (returning fd 9) swaps to fd 5 and yields 9 as the first accepted
connection. -/
theorem forwardee_classification_witness :
    Listener.forwardeeStep ⟨3, true⟩ (.ok ⟨0, [.scmRights [5]]⟩) (.ok 9) true
      = (.connFd 9, ⟨5, false⟩, [.removeFd 3, .closeFd 3, .addFd 5]) :=
  (forwardee_classification ⟨3, true⟩ (.ok ⟨0, [.scmRights [5]]⟩) 5 (.ok 9)
    rfl rfl).2.1 9 rfl

/-- C10: in the non-forwarder accept loop, an accepted fd not diverted by the
hook that fails `getpeername` or has nonzero `SO_ERROR` is closed
immediately, yields no item and the loop continues with the next accept;
an fd passing both checks is yielded as a `(remote, promote)` pair. -/
theorem listener_accept_filtering (l : Listener) (e : AcceptEvent)
    (rest : List AcceptEvent) (fd : Fd) :
    (e.res = .ok fd → e.hook = false → (e.peer = none ∨ e.soError ≠ 0) →
      Listener.acceptNext l (e :: rest)
        = ((Listener.acceptNext l rest).1,
           .closeFd fd :: (Listener.acceptNext l rest).2)) ∧
    (∀ remote, e.res = .ok fd → e.hook = false → e.peer = some remote →
      e.soError = 0 →
      Listener.acceptNext l (e :: rest) = (.yielded remote fd rest, [])) := by
  constructor
  · intro hres hhook hbad
    simp only [Listener.acceptNext, hres, hhook, Bool.false_eq_true, if_false]
    rcases hbad with hpeer | hso
    · rw [hpeer]
    · cases hpeer : e.peer with
      | none => rfl
      | some remote =>
        cases hso' : e.soError with
        | zero => exact absurd hso' hso
        | succ n => rfl
  · intro remote hres hhook hpeer hso
    simp only [Listener.acceptNext, hres, hhook, Bool.false_eq_true, if_false,
      hpeer, hso]

/-- C10 witness: an accepted fd 4 with dead peer (`getpeername` fails) is
closed and skipped; the following accept with peer 11 and clean `SO_ERROR`
is yielded. -/
theorem listener_accept_filtering_witness :
    Listener.acceptNext ⟨3, false⟩
        (⟨.ok 4, false, none, 0⟩ :: [⟨.ok 6, false, some 11, 0⟩])
      = ((Listener.acceptNext ⟨3, false⟩ [⟨.ok 6, false, some 11, 0⟩]).1,
         .closeFd 4 :: (Listener.acceptNext ⟨3, false⟩ [⟨.ok 6, false, some 11, 0⟩]).2) :=
  (listener_accept_filtering ⟨3, false⟩ ⟨.ok 4, false, none, 0⟩
    [⟨.ok 6, false, some 11, 0⟩] 4).1 rfl rfl (Or.inl rfl)

/-- C3: `Closing::poll` returns `Closed` only once the (possibly just
updated) `local_closed_given` flag holds and the kernel reports zero unsent
bytes, in which case it unregisters and closes the fd (the `Closed` result
carries no send ring); when `local_closed_given` holds but unsent bytes
remain it arms a ~1 ms timer via `add_instant` and remains `Closing`. -/
theorem closing_linger (s : Closing) (i : ClosingPollInput) :
    ((Closing.poll s i).1 = .closed →
      i.unsent = 0 ∧
      (∃ send', s.send.read_to_fd i.sendFlush = .ok send' ∧
        shutdownStep s.local_closed_given send' i.shutdownRes = some true) ∧
      (Closing.poll s i).2 = [.removeFd s.fd, .closeFd s.fd]) ∧
    (∀ send', i.unreceived = 0 → s.send.read_to_fd i.sendFlush = .ok send' →
      shutdownStep s.local_closed_given send' i.shutdownRes = some true →
      i.unsent ≠ 0 →
      Closing.poll s i = (.closing ⟨s.fd, send', true, s.remote⟩, [.addInstant])) := by
  constructor
  · intro hclosed
    unfold Closing.poll at hclosed ⊢
    split at hclosed
    · cases hclosed
    · split at hclosed
      · cases hclosed
      · rename_i send' hsend
        split at hclosed
        · cases hclosed
        · rename_i lcg' hlcg
          split at hclosed
          · split at hclosed
            · rename_i hlcgt hunsent
              refine ⟨by simpa using hunsent, ⟨send', hsend, by rw [hlcg, hlcgt]⟩, ?_⟩
              simp_all
            · cases hclosed
          · cases hclosed
  · intro send' hunrecv hsend hshut hunsent
    unfold Closing.poll
    rw [if_neg (by simp [hunrecv]), hsend]
    simp only [hshut]
    simp [hunsent]

/-- C3 witness: a `Closing` state that has already shut down its write side,
with an empty send ring but 5 unsent kernel bytes, stays `Closing` and arms
the retry timer. -/
theorem closing_linger_witness :
    Closing.poll ⟨2, ⟨0, 4⟩, true, 0⟩ ⟨0, .ok 0, none, 5⟩
      = (.closing ⟨2, ⟨0, 4⟩, true, 0⟩, [.addInstant]) :=
  (closing_linger ⟨2, ⟨0, 4⟩, true, 0⟩ ⟨0, .ok 0, none, 5⟩).2 ⟨0, 4⟩ rfl rfl rfl
    (by decide)

/-- C2 counterexample: a send-flush error during `Connected::poll` moves a
state holding a non-empty recv ring (2 buffered bytes, `remote_closed`
still false) to `Killed` — a state without a recv ring — so the poll result
does not "otherwise remain Connected". -/
theorem recv_ring_lost_on_kill :
    (Connected.poll ⟨7, ⟨0, 4⟩, ⟨2, 4⟩, false, 0⟩
        ⟨.error .other, .ok (0, false), ⟨0, .ok 0⟩⟩).1 = .killed ∧
    (⟨2, 4⟩ : CircularBuffer).read_available = 2 := by
  exact ⟨rfl, rfl⟩

/-- C2 (amended): a poll of a recv-ring state (`Connected`, `LocalClosed`)
yields a graceful state without a recv ring (`RemoteClosed`, resp.
`Closing`/`Closed`) only when, after this poll's recv-fill step, the recv
ring is empty and `remote_closed` holds; otherwise the poll retains the recv
ring (remaining `Connected` resp. `LocalClosed`, with the EOF-updated
`remote_closed` flag) unless an error kills the connection. -/
theorem no_recv_data_loss (s : Connected) (i : ConnectedPollInput)
    (s' : LocalClosed) (i' : LocalClosedPollInput) :
    ((∃ r, (Connected.poll s i).1 = .remoteClosed r) →
      ∃ recv2, recvStep s.recv s.remote_closed i.recvFill = .ok (recv2, true) ∧
        recv2.read_available = 0) ∧
    (∀ recv2 rc2, recvStep s.recv s.remote_closed i.recvFill = .ok (recv2, rc2) →
      ¬(rc2 = true ∧ recv2.read_available = 0) →
      ((∃ c, (Connected.poll s i).1 = .connected c ∧ c.recv = recv2 ∧
        c.remote_closed = rc2) ∨ (Connected.poll s i).1 = .killed)) ∧
    (((∃ x, (LocalClosed.poll s' i').1 = .closing x) ∨
        (LocalClosed.poll s' i').1 = .closed) →
      ∃ recv2, recvStep s'.recv s'.remote_closed i'.recvFill = .ok (recv2, true) ∧
        recv2.read_available = 0) ∧
    (∀ recv2 rc2, recvStep s'.recv s'.remote_closed i'.recvFill = .ok (recv2, rc2) →
      ¬(rc2 = true ∧ recv2.read_available = 0) →
      ((∃ x, (LocalClosed.poll s' i').1 = .localClosed x ∧ x.recv = recv2 ∧
        x.remote_closed = rc2) ∨ (LocalClosed.poll s' i').1 = .killed)) := by
  have guard_true : ∀ (recv2 : CircularBuffer) (rc2 : Bool),
      ¬(rc2 = true ∧ recv2.read_available = 0) →
      (!rc2 || decide (0 < recv2.read_available)) = true := by
    intro recv2 rc2 hne
    cases rc2 with
    | false => simp
    | true =>
      simp only [Bool.not_true, Bool.false_or, decide_eq_true_eq]
      rcases Nat.eq_zero_or_pos recv2.read_available with h0 | h0
      · exact absurd ⟨rfl, h0⟩ hne
      · exact h0
  have guard_false : ∀ (recv2 : CircularBuffer) (rc2 : Bool),
      ¬(!rc2 || decide (0 < recv2.read_available)) = true →
      rc2 = true ∧ recv2.read_available = 0 := by
    intro recv2 rc2 hguard
    cases rc2 with
    | false => simp at hguard
    | true =>
      simp only [Bool.not_true, Bool.false_or, decide_eq_true_eq, Nat.not_lt,
        Nat.le_zero] at hguard
      exact ⟨rfl, hguard⟩
  refine ⟨?_, ?_, ?_, ?_⟩
  · rintro ⟨r, hr⟩
    unfold Connected.poll at hr
    cases hsend : s.send.read_to_fd i.sendFlush with
    | error e => rw [hsend] at hr; simp at hr
    | ok send' =>
      rw [hsend] at hr
      simp only [] at hr
      cases hrecv : recvStep s.recv s.remote_closed i.recvFill with
      | error e => rw [hrecv] at hr; simp at hr
      | ok p =>
        obtain ⟨recv2, rc2⟩ := p
        rw [hrecv] at hr
        simp only [] at hr
        by_cases hguard : (!rc2 || decide (0 < recv2.read_available)) = true
        · rw [if_pos hguard] at hr; simp at hr
        · rw [if_neg hguard] at hr
          obtain ⟨hrc, hlen⟩ := guard_false recv2 rc2 hguard
          exact ⟨recv2, by rw [hrc], hlen⟩
  · rintro recv2 rc2 hrecv hne
    unfold Connected.poll
    cases hsend : s.send.read_to_fd i.sendFlush with
    | error e => exact Or.inr rfl
    | ok send' =>
      rw [hrecv]
      simp only []
      rw [if_pos (guard_true recv2 rc2 hne)]
      exact Or.inl ⟨_, rfl, rfl, rfl⟩
  · intro hgone
    unfold LocalClosed.poll at hgone
    by_cases h1 : s'.local_closed_given = true ∧ s'.remote_closed = true ∧
        i'.soError ≠ 0
    · rw [if_pos h1] at hgone
      rcases hgone with ⟨y, hy⟩ | hy <;> simp at hy
    · rw [if_neg h1] at hgone
      cases hsend : (if s'.local_closed_given = true then Except.ok s'.send
          else s'.send.read_to_fd i'.sendFlush) with
      | error e =>
        rw [hsend] at hgone
        rcases hgone with ⟨y, hy⟩ | hy <;> simp at hy
      | ok send' =>
        rw [hsend] at hgone
        simp only [] at hgone
        cases hrecv : recvStep s'.recv s'.remote_closed i'.recvFill with
        | error e =>
          rw [hrecv] at hgone
          rcases hgone with ⟨y, hy⟩ | hy <;> simp at hy
        | ok p =>
          obtain ⟨recv2, rc2⟩ := p
          rw [hrecv] at hgone
          simp only [] at hgone
          cases hshut : shutdownStep s'.local_closed_given send' i'.shutdownRes with
          | none =>
            rw [hshut] at hgone
            rcases hgone with ⟨y, hy⟩ | hy <;> simp at hy
          | some lcg' =>
            rw [hshut] at hgone
            simp only [] at hgone
            by_cases hguard : (!rc2 || decide (0 < recv2.read_available)) = true
            · rw [if_pos hguard] at hgone
              rcases hgone with ⟨y, hy⟩ | hy <;> simp at hy
            · obtain ⟨hrc, hlen⟩ := guard_false recv2 rc2 hguard
              exact ⟨recv2, by rw [hrc], hlen⟩
  · rintro recv2 rc2 hrecv hne
    unfold LocalClosed.poll
    by_cases h1 : s'.local_closed_given = true ∧ s'.remote_closed = true ∧
        i'.soError ≠ 0
    · rw [if_pos h1]
      exact Or.inr rfl
    · rw [if_neg h1]
      cases hsend : (if s'.local_closed_given = true then Except.ok s'.send
          else s'.send.read_to_fd i'.sendFlush) with
      | error e => exact Or.inr rfl
      | ok send' =>
        simp only []
        rw [hrecv]
        simp only []
        cases hshut : shutdownStep s'.local_closed_given send' i'.shutdownRes with
        | none => exact Or.inr rfl
        | some lcg' =>
          simp only []
          rw [if_pos (guard_true recv2 rc2 hne)]
          exact Or.inl ⟨_, rfl, rfl, rfl⟩

/-- C2 witness: a `Connected` state with one buffered byte and no EOF yet
stays `Connected`, keeping the ring and the flag. -/
theorem no_recv_data_loss_witness :
    (∃ c, (Connected.poll ⟨7, ⟨0, 4⟩, ⟨1, 4⟩, false, 0⟩
        ⟨.ok 0, .ok (0, false), ⟨0, .ok 0⟩⟩).1 = .connected c ∧
      c.recv = ⟨1, 4⟩ ∧ c.remote_closed = false) ∨
    (Connected.poll ⟨7, ⟨0, 4⟩, ⟨1, 4⟩, false, 0⟩
        ⟨.ok 0, .ok (0, false), ⟨0, .ok 0⟩⟩).1 = .killed :=
  (no_recv_data_loss ⟨7, ⟨0, 4⟩, ⟨1, 4⟩, false, 0⟩ ⟨.ok 0, .ok (0, false), ⟨0, .ok 0⟩⟩
      ⟨7, ⟨0, 4⟩, ⟨1, 4⟩, false, false, 0⟩
      ⟨0, .ok 0, .ok (0, false), none, ⟨0, .ok 0, none, 0⟩⟩).2.1
    ⟨1, 4⟩ false (by decide) (by decide)

/-- Tuple helper: a loop step that returned without recursing (one counter
increment) neither aborts nor can account for `left + 2` increments. -/
theorem capBase {A : Type} {r ab : A} (tr : List Event) (left : Nat) (hne : r ≠ ab) :
    (((r, tr, 1) : A × List Event × Nat).1 = ab ↔
      ((r, tr, 1) : A × List Event × Nat).2.2 = left + 1 + 1) ∧
    ((r, tr, 1) : A × List Event × Nat).2.2 ≤ left + 1 + 1 := by
  refine ⟨⟨fun h => absurd h hne, fun h => ?_⟩, ?_⟩
  · have h1 : (1 : Nat) = left + 1 + 1 := h
    exact absurd h1 (by omega)
  · show (1 : Nat) ≤ left + 1 + 1
    omega

/-- Tuple helper: a loop step that recursed adds one counter increment to the
recursive call's tally, preserving the abort-iff-cap property. -/
theorem capStep {A : Type} {ab : A} (p : A × List Event × Nat) (tr : List Event)
    (left : Nat)
    (hp : (p.1 = ab ↔ p.2.2 = left + 1) ∧ p.2.2 ≤ left + 1) :
    (((p.1, tr, p.2.2 + 1) : A × List Event × Nat).1 = ab ↔
      ((p.1, tr, p.2.2 + 1) : A × List Event × Nat).2.2 = left + 1 + 1) ∧
    ((p.1, tr, p.2.2 + 1) : A × List Event × Nat).2.2 ≤ left + 1 + 1 := by
  refine ⟨⟨fun h => ?_, fun h => ?_⟩, ?_⟩
  · have := hp.1.mp h
    show p.2.2 + 1 = left + 1 + 1
    omega
  · have h1 : p.2.2 + 1 = left + 1 + 1 := h
    exact hp.1.mpr (by omega)
  · show p.2.2 + 1 ≤ left + 1 + 1
    have := hp.2
    omega

/-- Helper for the retry cap: a `Connecter.pollLoop` call allowed `left` more
iterations aborts exactly when it performs `left + 1` counter increments, and
never performs more. -/
theorem connecterLoop_cap (local_addr remote : SockAddr) (f : Nat → ConnecterIter) :
    ∀ (left : Nat) (st : Option Fd) (idx : Nat),
      ((Connecter.pollLoop local_addr remote st f idx left).1 = .aborted ↔
        (Connecter.pollLoop local_addr remote st f idx left).2.2 = left + 1) ∧
      (Connecter.pollLoop local_addr remote st f idx left).2.2 ≤ left + 1 := by
  intro left
  induction left with
  | zero =>
    intro st idx
    exact ⟨⟨fun _ => rfl, fun _ => rfl⟩, Nat.le_refl 1⟩
  | succ left ih =>
    intro st idx
    cases st with
    | none =>
      cases hcr : (f idx).connectRes with
      | otherOrOk =>
        have he : Connecter.pollLoop local_addr remote none f idx (left + 1)
            = (.panicked, [.addFd (f idx).newFd], 1) := by
          simp [Connecter.pollLoop, hcr]
        rw [he]
        exact capBase _ left (by simp)
      | eaddrnotavail =>
        have he : Connecter.pollLoop local_addr remote none f idx (left + 1)
            = (.connecter ⟨none, local_addr, remote⟩,
               [.addFd (f idx).newFd, .removeFd (f idx).newFd,
                .closeFd (f idx).newFd, .addInstant], 1) := by
          simp [Connecter.pollLoop, hcr]
        rw [he]
        exact capBase _ left (by simp)
      | econnaborted =>
        have he : Connecter.pollLoop local_addr remote none f idx (left + 1)
            = (.connecter ⟨none, local_addr, remote⟩,
               [.addFd (f idx).newFd, .removeFd (f idx).newFd,
                .closeFd (f idx).newFd, .addInstant], 1) := by
          simp [Connecter.pollLoop, hcr]
        rw [he]
        exact capBase _ left (by simp)
      | einprogress =>
        by_cases hso : ((f idx).soErrorNew == 0) = true
        · have he : Connecter.pollLoop local_addr remote none f idx (left + 1)
              = ((Connecter.pollLoop local_addr remote (some (f idx).newFd) f
                    (idx + 1) left).1,
                 .addFd (f idx).newFd ::
                   (Connecter.pollLoop local_addr remote (some (f idx).newFd) f
                     (idx + 1) left).2.1,
                 (Connecter.pollLoop local_addr remote (some (f idx).newFd) f
                   (idx + 1) left).2.2 + 1) := by
            simp [Connecter.pollLoop, hcr, hso]
          rw [he]
          exact capStep _ _ left (ih (some (f idx).newFd) (idx + 1))
        · have he : Connecter.pollLoop local_addr remote none f idx (left + 1)
              = (.connecter ⟨none, local_addr, remote⟩,
                 [.addFd (f idx).newFd, .removeFd (f idx).newFd,
                  .closeFd (f idx).newFd, .addInstant], 1) := by
            simp [Connecter.pollLoop, hcr, hso]
          rw [he]
          exact capBase _ left (by simp)
    | some fd =>
      by_cases hso : ((f idx).soError == 0) = true
      · by_cases hic : (f idx).isConnected = true
        · have he : ∃ r0 t0, Connecter.pollLoop local_addr remote (some fd) f idx
              (left + 1) = (r0, t0, 1) ∧ r0 ≠ ConnecterPoll.aborted := by
            simp only [Connecter.pollLoop, hso, hic, if_true]
            cases hcn : Connected.new fd remote (f idx).promoted with
            | mk r0 t0 => cases r0 <;> exact ⟨_, _, rfl, by simp⟩
          obtain ⟨r0, t0, he, hne⟩ := he
          rw [he]
          exact capBase _ left hne
        · have he : Connecter.pollLoop local_addr remote (some fd) f idx (left + 1)
              = (.connecter ⟨some fd, local_addr, remote⟩, [], 1) := by
            simp [Connecter.pollLoop, hso, hic]
          rw [he]
          exact capBase _ left (by simp)
      · have he : Connecter.pollLoop local_addr remote (some fd) f idx (left + 1)
            = ((Connecter.pollLoop local_addr remote none f (idx + 1) left).1,
               .removeFd fd :: .closeFd fd ::
                 (Connecter.pollLoop local_addr remote none f (idx + 1) left).2.1,
               (Connecter.pollLoop local_addr remote none f (idx + 1) left).2.2 + 1) := by
          simp [Connecter.pollLoop, hso]
        rw [he]
        exact capStep _ _ left (ih none (idx + 1))

/-- Helper for the retry cap, `ConnecterLocalClosed` variant. -/
theorem connecterLocalClosedLoop_cap (local_addr remote : SockAddr)
    (g : Nat → ConnecterLocalClosedIter) :
    ∀ (left : Nat) (st : Option Fd) (idx : Nat),
      ((ConnecterLocalClosed.pollLoop local_addr remote st g idx left).1 = .aborted ↔
        (ConnecterLocalClosed.pollLoop local_addr remote st g idx left).2.2 = left + 1) ∧
      (ConnecterLocalClosed.pollLoop local_addr remote st g idx left).2.2 ≤ left + 1 := by
  intro left
  induction left with
  | zero =>
    intro st idx
    exact ⟨⟨fun _ => rfl, fun _ => rfl⟩, Nat.le_refl 1⟩
  | succ left ih =>
    intro st idx
    cases st with
    | none =>
      have he : ConnecterLocalClosed.pollLoop local_addr remote none g idx (left + 1)
          = (.closed, [], 1) := by
        simp [ConnecterLocalClosed.pollLoop]
      rw [he]
      exact capBase _ left (by simp)
    | some fd =>
      by_cases hso : ((g idx).soError == 0) = true
      · by_cases hic : (g idx).isConnected = true
        · have he : ∃ r0 t0, ConnecterLocalClosed.pollLoop local_addr remote (some fd)
              g idx (left + 1) = (r0, t0, 1) ∧
              r0 ≠ ConnecterLocalClosedPoll.aborted := by
            simp only [ConnecterLocalClosed.pollLoop, hso, hic, if_true]
            cases hcn : LocalClosed.new fd ⟨0, BUF⟩ ⟨0, BUF⟩ false remote
                (g idx).promoted with
            | mk r0 t0 => cases r0 <;> exact ⟨_, _, rfl, by simp⟩
          obtain ⟨r0, t0, he, hne⟩ := he
          rw [he]
          exact capBase _ left hne
        · have he : ConnecterLocalClosed.pollLoop local_addr remote (some fd) g idx
              (left + 1)
              = (.connecterLocalClosed ⟨some fd, local_addr, remote⟩, [], 1) := by
            simp [ConnecterLocalClosed.pollLoop, hso, hic]
          rw [he]
          exact capBase _ left (by simp)
      · have he : ConnecterLocalClosed.pollLoop local_addr remote (some fd) g idx
            (left + 1)
            = ((ConnecterLocalClosed.pollLoop local_addr remote none g (idx + 1) left).1,
               .removeFd fd :: .closeFd fd ::
                 (ConnecterLocalClosed.pollLoop local_addr remote none g (idx + 1) left).2.1,
               (ConnecterLocalClosed.pollLoop local_addr remote none g (idx + 1) left).2.2
                 + 1) := by
          simp [ConnecterLocalClosed.pollLoop, hso]
        rw [he]
        exact capStep _ _ left (ih none (idx + 1))

/-- C7: the retry loops of `Connecter::poll` and `ConnecterLocalClosed::poll`
abort (failed `assert!(count < 1_000)`) exactly when the iteration counter
reaches 1000 within the single poll call, and never abort for fewer
iterations; each failed connect attempt before the cap discards the fresh fd
(unregister + close), arms a ~1 ms retry timer via `add_instant`, and returns
the `Connecter` state. -/
theorem connecter_retry_cap (s : Connecter) (t : ConnecterLocalClosed)
    (f : Nat → ConnecterIter) (g : Nat → ConnecterLocalClosedIter) :
    ((Connecter.poll s f).1 = .aborted ↔ (Connecter.poll s f).2.2 = 1000) ∧
    (Connecter.poll s f).2.2 ≤ 1000 ∧
    ((ConnecterLocalClosed.poll t g).1 = .aborted ↔
      (ConnecterLocalClosed.poll t g).2.2 = 1000) ∧
    (ConnecterLocalClosed.poll t g).2.2 ≤ 1000 ∧
    (∀ idx left i, f idx = i →
      (i.connectRes = .eaddrnotavail ∨ i.connectRes = .econnaborted ∨
        (i.connectRes = .einprogress ∧ i.soErrorNew ≠ 0)) →
      Connecter.pollLoop s.local_addr s.remote none f idx (left + 1)
        = (.connecter ⟨none, s.local_addr, s.remote⟩,
           [.addFd i.newFd, .removeFd i.newFd, .closeFd i.newFd, .addInstant], 1)) := by
  have hc := connecterLoop_cap s.local_addr s.remote f 999 s.state 0
  have hcl := connecterLocalClosedLoop_cap t.local_addr t.remote g 999 t.state 0
  refine ⟨hc.1, hc.2, hcl.1, hcl.2, ?_⟩
  rintro idx left i rfl hfail
  rcases hfail with h | h | ⟨h, hso⟩
  · simp [Connecter.pollLoop, h]
  · simp [Connecter.pollLoop, h]
  · simp [Connecter.pollLoop, h, hso]

/-- C7 witness: with every connect attempt failing `EADDRNOTAVAIL`, a single
loop entry discards fd 4, arms the retry timer and returns `Connecter`. -/
theorem connecter_retry_cap_witness :
    Connecter.pollLoop 0 1 none
        (fun _ => ⟨4, .eaddrnotavail, 0, 0, false, ⟨.ok 0, .ok (0, false), ⟨0, .ok 0⟩⟩⟩)
        0 1
      = (.connecter ⟨none, 0, 1⟩,
         [.addFd 4, .removeFd 4, .closeFd 4, .addInstant], 1) :=
  (connecter_retry_cap ⟨none, 0, 1⟩ ⟨none, 0, 1⟩
      (fun _ => ⟨4, .eaddrnotavail, 0, 0, false, ⟨.ok 0, .ok (0, false), ⟨0, .ok 0⟩⟩⟩)
      (fun _ => ⟨0, false, ⟨0, .ok 0, .ok (0, false), none, ⟨0, .ok 0, none, 0⟩⟩⟩)).2.2.2.2
    0 0 _ rfl (Or.inl rfl)

end TcpTyped
